import Mathlib

/-!
Verification of the jquants-downloader incremental quote cache
(`src/jquants_downloader.py`) against its natural-language specification.

The core logic only ever inspects the `Date` column of a quote frame, so a
DataFrame is modelled as the list of its row dates (`DF := List Nat`, a date
written as the number `YYYYMMDD`).  The HTTP layer is modelled by the shape of
the response a fetch call receives; on-disk pickle files are modelled by an
association list from path to encoded bytes together with an executable
encoder/decoder standing in for the pickle module.
-/

namespace JQD

/-- A DataFrame of daily quotes, represented by its `Date` column
(the only column the merge logic ever inspects). -/
abbrev DF := List Nat

/-! ### The fetch layer: `fetch_daily_quotes` (lines 11-18) -/

/-- Shape of the JSON body of a quote-API response:
either undecodable JSON, or JSON lacking the `daily_quotes` key,
or a proper `daily_quotes` row list. -/
inductive Body where
  | malformed : Body
  | missingKey : Body
  | quotes (rows : DF) : Body
deriving DecidableEq

/-- Outcome of the HTTP GET in `fetch_daily_quotes`: either a transport-level
failure raised by `requests.get` itself, or a response with a status code and
a body. -/
inductive Resp where
  | netFail : Resp
  | http (status : Nat) (body : Body) : Resp
deriving DecidableEq

/-- Errors `fetch_daily_quotes` can raise.  `fetchError none` is a
transport failure, `fetchError (some s)` is the `HTTPError` raised by
`raise_for_status` for a 4xx/5xx status `s`; `jsonDecodeError` is the
error `r.json()` raises on an undecodable body (the source pins no
requests version; from requests 2.27 on this is
`requests.exceptions.JSONDecodeError`, a `RequestException` subclass,
and the model follows that); `parseError` is the `KeyError` raised by
`r.json()['daily_quotes']` when the key is absent, which is never a
`RequestException`. -/
inductive FetchErr where
  | fetchError (status : Option Nat) : FetchErr
  | jsonDecodeError : FetchErr
  | parseError : FetchErr
deriving DecidableEq

/-- Which errors the `except requests.exceptions.RequestException`
handlers in `save_quotes` (lines 112, 119) catch: transport and HTTP
failures, and (requests 2.27 and later) the JSON-decode failure; the
`KeyError` for a missing `daily_quotes` key is not caught. -/
def is_request_exception : FetchErr → Bool
  | .fetchError _ => true
  | .jsonDecodeError => true
  | .parseError => false

/-- `fetch_daily_quotes` (lines 11-18): issue the GET, call
`raise_for_status` (which raises `HTTPError` exactly for 4xx/5xx
statuses, that is `400 <= status < 600`; every other status proceeds),
then extract `r.json()['daily_quotes']` and build the frame. -/
def fetch_daily_quotes : Resp → Except FetchErr DF
  | .netFail => .error (.fetchError none)
  | .http s b =>
    if 400 ≤ s ∧ s < 600 then .error (.fetchError (some s))
    else
      match b with
      | .malformed => .error .jsonDecodeError
      | .missingKey => .error .parseError
      | .quotes rows => .ok rows

/-! ### `check_df_range` (lines 32-35) and the two fetch ranges -/

/-- `df['Date'].min()`: `none` models pandas' NaN on an empty frame. -/
def series_min : DF → Option Nat
  | [] => none
  | a :: t => some (t.foldl min a)

/-- `df['Date'].max()`: `none` models pandas' NaN on an empty frame. -/
def series_max : DF → Option Nat
  | [] => none
  | a :: t => some (t.foldl max a)

/-- `check_df_range` (lines 32-35): first and last date of the frame. -/
def check_df_range (df : DF) : Option Nat × Option Nat :=
  (series_min df, series_max df)

/-- The `before_past_data` request range (lines 104-105):
from the caller's `st` to the first cached date. -/
def before_range (st : Option Nat) (dfPast : DF) : Option Nat × Option Nat :=
  (st, (check_df_range dfPast).1)

/-- The `after_past_data` request range (lines 107-108):
from the last cached date to the caller's `end`. -/
def after_range (dfPast : DF) (e : Option Nat) : Option Nat × Option Nat :=
  ((check_df_range dfPast).2, e)

/-! ### The merge section of `save_quotes` (lines 100-124) -/

/-- Python-level failures of the merge section of `save_quotes`:
a propagated non-`RequestException` fetch failure, the `IndexError`
raised by `df.index[-1]` / `df.index[0]` on an empty frame
(lines 115, 122), and the `UnboundLocalError` raised at the concat
(line 124) when `df_after` was never assigned. -/
inductive PyErr where
  | uncaught (e : FetchErr) : PyErr
  | indexError : PyErr
  | unboundLocal : PyErr
deriving DecidableEq

/-- The second try/except of `save_quotes` (lines 117-124), given the already
computed `df_before` value.  Note the handler at lines 119-120 assigns the
empty frame to `df_before` -- not to `df_after` -- so in that branch
`df_after` is still unassigned when line 124 evaluates
`pd.concat([df_before, df_past, df_after], ...)`, which therefore raises
`UnboundLocalError` (the dead store to `df_before` is unobservable). -/
def after_block (dfPast dfBefore : DF) (respA : Resp) : Except PyErr DF :=
  match fetch_daily_quotes respA with
  | .error ea =>
    if is_request_exception ea then .error .unboundLocal
    else .error (.uncaught ea)
  | .ok dfA =>
    if dfA = [] then .error .indexError
    else .ok (dfBefore ++ dfPast ++ dfA.drop 1)

/-- The merge section of `save_quotes` (lines 100-124), with
`df_past` already loaded from `load_data_path`.  `fetchFn` gives the
response each `fetch_daily_quotes` call receives for a requested
`(from, to)` range.  The first try/except (lines 110-115): on a caught
`RequestException` set `df_before` to an empty frame, otherwise drop the
last row of the fetched block (an `IndexError` when it is empty). -/
def save_quotes_merge (st e : Option Nat) (dfPast : DF)
    (fetchFn : Option Nat × Option Nat → Resp) : Except PyErr DF :=
  match fetch_daily_quotes (fetchFn (before_range st dfPast)) with
  | .error eb =>
    if is_request_exception eb then
      after_block dfPast [] (fetchFn (after_range dfPast e))
    else .error (.uncaught eb)
  | .ok dfB =>
    if dfB = [] then .error .indexError
    else after_block dfPast dfB.dropLast (fetchFn (after_range dfPast e))

/-! ### The pickle cache: `load_data` (lines 23-30) and the dump (lines 131-133) -/

/-- A value stored in a pickle file: a single quote frame (what
`save_quotes` dumps, legacy single-security mode) or a keyed collection of
frames (batch mode). -/
inductive PValue where
  | series (df : DF) : PValue
  | collection (entries : List (Nat × DF)) : PValue
deriving DecidableEq

/-- Pickle encoding of one collection entry: key, row count, rows. -/
def enc_entry (e : Nat × DF) : List Nat :=
  e.1 :: e.2.length :: e.2

/-- Pickle encoding of a collection's entry list. -/
def enc_entries : List (Nat × DF) → List Nat
  | [] => []
  | e :: es => enc_entry e ++ enc_entries es

/-- Pickle decoding of `n` collection entries; `none` on a malformed blob. -/
def dec_entries : Nat → List Nat → Option (List (Nat × DF))
  | 0, [] => some []
  | 0, _ :: _ => none
  | _ + 1, [] => none
  | _ + 1, [_] => none
  | n + 1, c :: len :: rest =>
    if len ≤ rest.length then
      match dec_entries n (rest.drop len) with
      | some es => some ((c, rest.take len) :: es)
      | none => none
    else none

/-- `pickle.dumps`: serialize a stored value to a byte list. -/
def pickle_dumps : PValue → List Nat
  | .series df => 0 :: df.length :: df
  | .collection es => 1 :: es.length :: enc_entries es

/-- `pickle.loads`: parse a byte list back; `none` models `UnpicklingError`. -/
def pickle_loads : List Nat → Option PValue
  | 0 :: len :: rest => if rest.length = len then some (.series rest) else none
  | 1 :: n :: rest => (dec_entries n rest).map PValue.collection
  | _ => none

/-- The file system: an association list from path to pickled bytes. -/
abbrev FS := List (String × List Nat)

/-- Look a path up in the file system (first binding wins). -/
def fs_lookup : FS → String → Option (List Nat)
  | [], _ => none
  | (k, b) :: t, p => if p = k then some b else fs_lookup t p

/-- Failures of `load_data`: the `NoFileError` of lines 29 and 38-43
(carrying its message), or a pickle failure on a corrupt blob. -/
inductive LoadErr where
  | noFile (msg : String) : LoadErr
  | unpicklingError : LoadErr
deriving DecidableEq

/-- `load_data` (lines 23-30): if the path exists, unpickle its contents;
otherwise raise `NoFileError` with a message naming the missing path. -/
def load_data (fs : FS) (p : String) : Except LoadErr PValue :=
  match fs_lookup fs p with
  | some blob =>
    match pickle_loads blob with
    | some v => .ok v
    | none => .error .unpicklingError
  | none =>
    .error (.noFile ("Data does not exist at \"" ++ p ++
      "\". Check if argument \"load_data_path\" is correct."))

/-- The dump step of `save_quotes` (lines 131-133): pickle the value to
`dump_data_path`. -/
def dump_data (fs : FS) (p : String) (v : PValue) : FS :=
  (p, pickle_dumps v) :: fs

/-! ### Helper lemmas -/

theorem dec_entries_enc (es : List (Nat × DF)) :
    dec_entries es.length (enc_entries es) = some es := by
  induction es with
  | nil => rfl
  | cons e t ih =>
    rcases e with ⟨c, df⟩
    show dec_entries (t.length + 1) (c :: df.length :: (df ++ enc_entries t)) = _
    rw [dec_entries]
    rw [if_pos (by simp)]
    rw [List.drop_left, List.take_left, ih]

theorem pickle_roundtrip (v : PValue) : pickle_loads (pickle_dumps v) = some v := by
  cases v with
  | series df => simp [pickle_dumps, pickle_loads]
  | collection es => simp [pickle_dumps, pickle_loads, dec_entries_enc]

theorem foldl_min_eq_self {t : List Nat} {a : Nat} (h : ∀ x ∈ t, a ≤ x) :
    t.foldl min a = a := by
  induction t generalizing a with
  | nil => rfl
  | cons b t ih =>
    have hab : min a b = a := Nat.min_eq_left (h b (by simp))
    show t.foldl min (min a b) = a
    rw [hab]
    exact ih fun x hx => h x (by simp [hx])

/-- On a strictly increasing series, `df['Date'].min()` is the first row. -/
theorem series_min_eq_head (l : DF) (hc : l.Chain' (· < ·)) :
    series_min l = l.head? := by
  cases l with
  | nil => rfl
  | cons a t =>
    show some (t.foldl min a) = some a
    have hp := (List.chain'_iff_pairwise.mp hc)
    have hall : ∀ x ∈ t, a ≤ x := fun x hx =>
      Nat.le_of_lt ((List.pairwise_cons.mp hp).1 x hx)
    rw [foldl_min_eq_self hall]

/-- On a strictly increasing series, `df['Date'].max()` is the last row. -/
theorem series_max_eq_getLast (l : DF) (hc : l.Chain' (· < ·)) :
    series_max l = l.getLast? := by
  induction l with
  | nil => rfl
  | cons a t ih =>
    cases t with
    | nil => rfl
    | cons b t2 =>
      have hab : a < b := (List.chain'_cons.mp hc).1
      have hc2 : (b :: t2).Chain' (· < ·) := (List.chain'_cons.mp hc).2
      show some (((b :: t2) : DF).foldl max a) = _
      have h1 : ((b :: t2) : DF).foldl max a = (t2 : DF).foldl max b := by
        show (t2 : DF).foldl max (max a b) = _
        rw [Nat.max_eq_right (Nat.le_of_lt hab)]
      rw [List.getLast?_cons_cons]
      rw [h1]
      exact ih hc2

/-- Shape of a fully successful merge: both fetches succeed and return
non-empty frames, so the result is the before block without its last row,
then the cached block, then the after block without its first row. -/
theorem merge_ok_shape (st e : Option Nat) (dfPast bf af : DF)
    (fetchFn : Option Nat × Option Nat → Resp)
    (hb : fetch_daily_quotes (fetchFn (before_range st dfPast)) = .ok bf)
    (ha : fetch_daily_quotes (fetchFn (after_range dfPast e)) = .ok af)
    (hbne : bf ≠ []) (hane : af ≠ []) :
    save_quotes_merge st e dfPast fetchFn = .ok (bf.dropLast ++ dfPast ++ af.drop 1) := by
  unfold save_quotes_merge
  rw [hb]
  simp only [if_neg hbne]
  unfold after_block
  rw [ha]
  simp only [if_neg hane]

/-! ### Claim theorems -/

/-- C1: with `load_data_path` given, a non-empty cached series, and
successfully fetched non-empty before and after blocks, `save_quotes`
returns the before block with its last row removed, then the cached series,
then the after block with its first row removed, in that order. -/
theorem sandwich_merge (st e : Option Nat) (dfPast bf af : DF)
    (fetchFn : Option Nat × Option Nat → Resp)
    (hb : fetch_daily_quotes (fetchFn (before_range st dfPast)) = .ok bf)
    (ha : fetch_daily_quotes (fetchFn (after_range dfPast e)) = .ok af)
    (hbne : bf ≠ []) (hane : af ≠ []) :
    save_quotes_merge st e dfPast fetchFn = .ok (bf.dropLast ++ dfPast ++ af.drop 1) :=
  merge_ok_shape st e dfPast bf af fetchFn hb ha hbne hane

/-- Fetch responses realizing the spec's concrete sandwich example: the
before request (from 2024-01-01) yields 2024-01-01..2024-02-05 and the after
request yields 2024-02-10..2024-02-20, the cache holding
2024-02-05..2024-02-10. -/
def sandwichFetch : Option Nat × Option Nat → Resp := fun r =>
  if r.1 = some 20240101 then Resp.http 200 (Body.quotes [20240101, 20240115, 20240205])
  else Resp.http 200 (Body.quotes [20240210, 20240215, 20240220])

/-- C1 witness: the merged series spans 2024-01-01..2024-02-20 with exactly
one row dated 2024-02-05 and one dated 2024-02-10. -/
theorem sandwich_merge_witness :
    save_quotes_merge (some 20240101) (some 20240220)
        [20240205, 20240207, 20240210] sandwichFetch =
      .ok [20240101, 20240115, 20240205, 20240207, 20240210, 20240215, 20240220] ∧
    ([20240101, 20240115, 20240205, 20240207, 20240210,
        20240215, 20240220] : DF).count 20240205 = 1 ∧
    ([20240101, 20240115, 20240205, 20240207, 20240210,
        20240215, 20240220] : DF).count 20240210 = 1 := by
  refine ⟨?_, by decide, by decide⟩
  rw [sandwich_merge (some 20240101) (some 20240220) [20240205, 20240207, 20240210]
    [20240101, 20240115, 20240205] [20240210, 20240215, 20240220] sandwichFetch
    rfl rfl (by decide) (by decide)]
  rfl

/-- C6: for a non-empty (sorted) cached series with first date F and last
date L, the merge consults the fetch function on exactly the two ranges
(st, F) and (L, end); each fetched piece overlaps the cached block at that
boundary date, and the merge removes the boundary row from each piece
(last row of the before block, first row of the after block). -/
theorem two_sided_ranges (st e : Option Nat) (dfPast : DF)
    (hpne : dfPast ≠ []) (hpc : dfPast.Chain' (· < ·)) :
    before_range st dfPast = (st, dfPast.head?) ∧
    after_range dfPast e = (dfPast.getLast?, e) ∧
    (∀ f g : Option Nat × Option Nat → Resp,
      f (before_range st dfPast) = g (before_range st dfPast) →
      f (after_range dfPast e) = g (after_range dfPast e) →
      save_quotes_merge st e dfPast f = save_quotes_merge st e dfPast g) ∧
    (∀ (fetchFn : Option Nat × Option Nat → Resp) (bf af : DF),
      fetch_daily_quotes (fetchFn (before_range st dfPast)) = .ok bf →
      fetch_daily_quotes (fetchFn (after_range dfPast e)) = .ok af →
      bf ≠ [] → af ≠ [] →
      save_quotes_merge st e dfPast fetchFn = .ok (bf.dropLast ++ dfPast ++ af.drop 1)) := by
  refine ⟨?_, ?_, ?_, ?_⟩
  · unfold before_range check_df_range
    rw [series_min_eq_head dfPast hpc]
  · unfold after_range check_df_range
    rw [series_max_eq_getLast dfPast hpc]
  · intro f g hf hg
    unfold save_quotes_merge
    rw [hf, hg]
  · intro fetchFn bf af hb ha hbne hane
    exact merge_ok_shape st e dfPast bf af fetchFn hb ha hbne hane

/-- C6 witness: on the cache [5, 6, 8] the two requested ranges are
(1, 5) and (8, 9). -/
theorem two_sided_ranges_witness :
    before_range (some 1) [5, 6, 8] = (some 1, some 5) ∧
    after_range [5, 6, 8] (some 9) = (some 8, some 9) := by
  have h := two_sided_ranges (some 1) (some 9) [5, 6, 8] (by decide)
    (by norm_num [List.chain'_cons])
  exact ⟨h.1, h.2.1⟩

/-- C10: if a side's fetch succeeds but returns an empty frame, the
boundary-row drop on that side (line 115 or line 122) raises `IndexError`
instead of returning a merged series. -/
theorem empty_block_index_error (st e : Option Nat) (dfPast : DF)
    (fetchFn : Option Nat × Option Nat → Resp) :
    (fetch_daily_quotes (fetchFn (before_range st dfPast)) = .ok [] →
      save_quotes_merge st e dfPast fetchFn = .error .indexError) ∧
    (fetch_daily_quotes (fetchFn (before_range st dfPast)) ≠ .error .parseError →
      fetch_daily_quotes (fetchFn (after_range dfPast e)) = .ok [] →
      save_quotes_merge st e dfPast fetchFn = .error .indexError) := by
  constructor
  · intro hb
    unfold save_quotes_merge
    rw [hb]
    simp
  · intro hbp ha
    unfold save_quotes_merge
    cases hfb : fetch_daily_quotes (fetchFn (before_range st dfPast)) with
    | error eb =>
      cases eb with
      | fetchError s =>
        simp only [is_request_exception, if_pos]
        unfold after_block
        rw [ha]
        simp
      | jsonDecodeError =>
        simp only [is_request_exception, if_pos]
        unfold after_block
        rw [ha]
        simp
      | parseError => exact absurd hfb hbp
    | ok dfB =>
      by_cases hB : dfB = []
      · simp [hB]
      · simp only [if_neg hB]
        unfold after_block
        rw [ha]
        simp

/-- Sortedness of a sandwich merge whose fetched blocks are sorted and
overlap the cache exactly at the boundary rows. -/
theorem chain_sandwich (dfPast bf af : DF)
    (hbne : bf ≠ []) (hpne : dfPast ≠ [])
    (hbc : bf.Chain' (· < ·)) (hac : af.Chain' (· < ·)) (hpc : dfPast.Chain' (· < ·))
    (hbl : bf.getLast? = dfPast.head?) (hah : af.head? = dfPast.getLast?) :
    (bf.dropLast ++ dfPast ++ af.drop 1).Chain' (· < ·) := by
  rw [List.chain'_append]
  refine ⟨?_, ?_, ?_⟩
  · rw [List.chain'_append]
    have hsplit : bf.dropLast ++ [bf.getLast hbne] = bf := List.dropLast_append_getLast hbne
    have hbc2 : (bf.dropLast ++ [bf.getLast hbne]).Chain' (· < ·) := by
      rw [hsplit]; exact hbc
    have hparts := List.chain'_append.mp hbc2
    refine ⟨hparts.1, hpc, ?_⟩
    intro x hx y hy
    have hxl : x < bf.getLast hbne := hparts.2.2 x hx (bf.getLast hbne) (by simp)
    have hhead : dfPast.head? = some (bf.getLast hbne) := by
      rw [← hbl]
      exact List.getLast?_eq_getLast_of_ne_nil hbne
    rw [Option.mem_def, hhead] at hy
    have hy' : y = bf.getLast hbne := (Option.some_injective _ hy).symm
    rw [hy']
    exact hxl
  · have ht := hac.tail
    simpa [List.drop_one] using ht
  · intro x hx y hy
    rw [Option.mem_def, List.getLast?_append_of_ne_nil _ hpne] at hx
    rcases af with _ | ⟨a0, t0⟩
    · simp at hy
    · rcases t0 with _ | ⟨a1, t1⟩
      · simp at hy
      · have hy' : y = a1 := by simpa using hy.symm
        have h1 : dfPast.getLast? = some a0 := hah.symm
        rw [h1] at hx
        have hx' : x = a0 := Option.some_injective _ hx.symm
        have hlt : a0 < a1 := (List.chain'_cons.mp hac).1
        rw [hx', hy']
        exact hlt

/-- C2 (amended): the merge performs no post-condition check; when the
vendor blocks are sorted and overlap the cache exactly at the boundary rows,
the returned series is sorted ascending with unique dates. -/
theorem merge_sorted_of_boundary_overlap (st e : Option Nat) (dfPast bf af : DF)
    (fetchFn : Option Nat × Option Nat → Resp)
    (hb : fetch_daily_quotes (fetchFn (before_range st dfPast)) = .ok bf)
    (ha : fetch_daily_quotes (fetchFn (after_range dfPast e)) = .ok af)
    (hbne : bf ≠ []) (hane : af ≠ []) (hpne : dfPast ≠ [])
    (hbc : bf.Chain' (· < ·)) (hac : af.Chain' (· < ·)) (hpc : dfPast.Chain' (· < ·))
    (hbl : bf.getLast? = dfPast.head?) (hah : af.head? = dfPast.getLast?) :
    save_quotes_merge st e dfPast fetchFn = .ok (bf.dropLast ++ dfPast ++ af.drop 1) ∧
    (bf.dropLast ++ dfPast ++ af.drop 1).Chain' (· < ·) ∧
    (bf.dropLast ++ dfPast ++ af.drop 1).Nodup := by
  have hch := chain_sandwich dfPast bf af hbne hpne hbc hac hpc hbl hah
  refine ⟨merge_ok_shape st e dfPast bf af fetchFn hb ha hbne hane, hch, ?_⟩
  have hp := List.chain'_iff_pairwise.mp hch
  exact hp.imp Nat.ne_of_lt

/-- Fetch responses whose blocks overlap the cache [5, 6, 8] exactly at the
boundary rows. -/
def boundaryFetch : Option Nat × Option Nat → Resp := fun r =>
  if r.1 = some 1 then Resp.http 200 (Body.quotes [1, 2, 5])
  else Resp.http 200 (Body.quotes [8, 9])

/-- C2 (amended) witness: a concrete boundary-overlap merge returns a
sorted, duplicate-free series. -/
theorem merge_sorted_of_boundary_overlap_witness :
    save_quotes_merge (some 1) (some 9) [5, 6, 8] boundaryFetch =
      .ok [1, 2, 5, 6, 8, 9] ∧
    ([1, 2, 5, 6, 8, 9] : DF).Chain' (· < ·) ∧
    ([1, 2, 5, 6, 8, 9] : DF).Nodup := by
  have h := merge_sorted_of_boundary_overlap (some 1) (some 9) [5, 6, 8] [1, 2, 5] [8, 9]
    boundaryFetch rfl rfl (by decide) (by decide) (by decide)
    (by norm_num [List.chain'_cons]) (by norm_num [List.chain'_cons])
    (by norm_num [List.chain'_cons]) rfl rfl
  exact ⟨h.1, h.2.1, h.2.2⟩

/-- Fetch responses where the before block overlaps the cache [5, 6] beyond
the boundary row (the vendor returned rows past the requested end 5). -/
def overlapFetch : Option Nat × Option Nat → Resp := fun r =>
  if r.1 = some 3 then Resp.http 200 (Body.quotes [3, 4, 5, 6])
  else Resp.http 200 (Body.quotes [6, 7])

/-- C2 counterexample: a merge that returns normally with a duplicate date
(5 appears twice); no check is performed and no error of any kind is
raised, so the violation is returned silently rather than surfaced. -/
theorem merge_returns_duplicates_silently :
    save_quotes_merge (some 3) (some 7) [5, 6] overlapFetch =
      .ok [3, 4, 5, 5, 6, 7] ∧
    ¬ ([3, 4, 5, 5, 6, 7] : DF).Nodup :=
  ⟨rfl, by decide⟩

/-- C3 (code behavior at the claim's scenario): when the before fetch
succeeds with a non-empty block and the after fetch raises a
`RequestException`, the handler at lines 119-120 assigns the empty frame to
`df_before` instead of `df_after`, so the concat at line 124 raises
`UnboundLocalError`: the merge crashes instead of returning
before-minus-last plus the cached series. -/
theorem after_fetch_failure_unbound_local (st e : Option Nat) (dfPast bf : DF)
    (fetchFn : Option Nat × Option Nat → Resp) (errA : FetchErr)
    (hb : fetch_daily_quotes (fetchFn (before_range st dfPast)) = .ok bf)
    (hbne : bf ≠ [])
    (ha : fetch_daily_quotes (fetchFn (after_range dfPast e)) = .error errA)
    (hreq : is_request_exception errA = true) :
    save_quotes_merge st e dfPast fetchFn = .error .unboundLocal := by
  unfold save_quotes_merge
  rw [hb]
  simp only [if_neg hbne]
  unfold after_block
  rw [ha]
  simp [hreq]

/-- Fetch responses where the before request (from 1) succeeds and the
after request fails with HTTP 503. -/
def afterFailFetch : Option Nat × Option Nat → Resp := fun r =>
  if r.1 = some 1 then Resp.http 200 (Body.quotes [1, 5])
  else Resp.http 503 (Body.quotes [])

/-- C3 witness: a concrete run whose after fetch fails crashes with
`UnboundLocalError`. -/
theorem after_fetch_failure_unbound_local_witness :
    save_quotes_merge (some 1) (some 9) [5, 6] afterFailFetch =
      .error .unboundLocal :=
  after_fetch_failure_unbound_local (some 1) (some 9) [5, 6] [1, 5] afterFailFetch
    (.fetchError (some 503)) rfl (by decide) rfl rfl

/-- Fetch responses where the before request (from 1) fails with HTTP 500
and the after request succeeds with [6, 7]. -/
def beforeFailFetch : Option Nat × Option Nat → Resp := fun r =>
  if r.1 = some 1 then Resp.http 500 (Body.quotes [])
  else Resp.http 200 (Body.quotes [6, 7])

/-- Fetch responses where the before request succeeds but returns only the
boundary row [5], and the after request succeeds with [6, 7]. -/
def beforeBoundaryFetch : Option Nat × Option Nat → Resp := fun r =>
  if r.1 = some 1 then Resp.http 200 (Body.quotes [5])
  else Resp.http 200 (Body.quotes [6, 7])

/-- C4 counterexample: a run whose before fetch fails with HTTP 500 returns
the plain merged frame, with a return value identical to that of a run in
which no fetch failed at all -- the failure is not reported to the caller
in any way. -/
theorem before_failure_silent :
    fetch_daily_quotes (beforeFailFetch (before_range (some 1) [5, 6])) =
      .error (.fetchError (some 500)) ∧
    save_quotes_merge (some 1) (some 9) [5, 6] beforeFailFetch = .ok [5, 6, 7] ∧
    fetch_daily_quotes (beforeBoundaryFetch (before_range (some 1) [5, 6])) =
      .ok [5] ∧
    save_quotes_merge (some 1) (some 9) [5, 6] beforeBoundaryFetch = .ok [5, 6, 7] :=
  ⟨rfl, rfl, rfl, rfl⟩

/-- C4 (amended): when the before fetch raises a `RequestException` and the
after fetch succeeds with a non-empty block, the merge still succeeds using
the cached series plus the after block with its first row dropped; the
failure is silently swallowed (nothing reports it to the caller). -/
theorem before_fail_soft_merge (st e : Option Nat) (dfPast af : DF)
    (fetchFn : Option Nat × Option Nat → Resp) (errB : FetchErr)
    (hb : fetch_daily_quotes (fetchFn (before_range st dfPast)) = .error errB)
    (hreq : is_request_exception errB = true)
    (ha : fetch_daily_quotes (fetchFn (after_range dfPast e)) = .ok af)
    (hane : af ≠ []) :
    save_quotes_merge st e dfPast fetchFn = .ok (dfPast ++ af.drop 1) := by
  unfold save_quotes_merge
  rw [hb]
  simp only [hreq, if_true]
  unfold after_block
  rw [ha]
  simp [if_neg hane]

/-- C4 (amended) witness: a concrete run with a failed before fetch and a
successful after fetch returns cached + after-minus-first. -/
theorem before_fail_soft_merge_witness :
    save_quotes_merge (some 1) (some 9) [5, 6] beforeFailFetch = .ok [5, 6, 7] := by
  rw [before_fail_soft_merge (some 1) (some 9) [5, 6] [6, 7] beforeFailFetch
    (.fetchError (some 500)) rfl rfl rfl (by decide)]
  rfl

/-- C10 witness: a vendor response with zero rows on the before side makes
the merge raise `IndexError`. -/
theorem empty_block_index_error_witness :
    save_quotes_merge (some 1) (some 9) [5, 6]
      (fun _ => Resp.http 200 (Body.quotes [])) = .error .indexError :=
  (empty_block_index_error (some 1) (some 9) [5, 6]
    (fun _ => Resp.http 200 (Body.quotes []))).1 rfl

/-! ### The batch-mode Range Reconciler and Orchestrator (spec-modelled)

The batch-oriented module of this repository (the Reconciler/Orchestrator
with the skip sentinel, spec section 4.2 and 4.5) is not among the source
files; only the single-security module is.  Its decision logic is modelled
from the spec below. -/

/-- Modelled from the spec: the Reconciler's decision -- either the skip
sentinel (no fetch needed) or a date range to fetch. -/
inductive RangeDecision where
  | skip : RangeDecision
  | fetch (st e : Option Nat) : RangeDecision
deriving DecidableEq

/-- Modelled from the spec: the batch-mode Range Reconciler (section 4.2,
missing from src/).  With no cached series (or an empty one) request the
full open range; otherwise compute `next_needed = last_cached + 1 day` and
skip when `end < next_needed`. -/
def reconcile (cached : DF) (e : Option Nat) : RangeDecision :=
  match series_max cached with
  | none => .fetch none e
  | some lastCached =>
    match e with
    | none => .fetch (some (lastCached + 1)) none
    | some ed =>
      if ed < lastCached + 1 then .skip
      else .fetch (some (lastCached + 1)) (some ed)

/-- Modelled from the spec: the Batch Orchestrator's per-security step
(section 4.5, missing from src/): on the skip sentinel leave the series
untouched, otherwise fetch the decided range and splice it after the
cached series. -/
def orchestrator_step (cached : DF) (e : Option Nat)
    (fetchFn : Option Nat → Option Nat → DF) : DF :=
  match reconcile cached e with
  | .skip => cached
  | .fetch a b => cached ++ fetchFn a b

/-- C5: when the requested end does not exceed the last cached date, the
Reconciler emits the skip sentinel and the cached series is returned
unchanged, whatever any fetch would have returned (no fetch influences the
result). -/
theorem skip_leaves_cache_unchanged (cached : DF) (e m : Nat)
    (hm : series_max cached = some m) (he : e ≤ m) :
    reconcile cached (some e) = RangeDecision.skip ∧
    ∀ fetchFn : Option Nat → Option Nat → DF,
      orchestrator_step cached (some e) fetchFn = cached := by
  have hskip : reconcile cached (some e) = RangeDecision.skip := by
    unfold reconcile
    rw [hm]
    simp only [if_pos (Nat.lt_succ_of_le he)]
  refine ⟨hskip, ?_⟩
  intro fetchFn
  unfold orchestrator_step
  rw [hskip]

/-- C5 witness: with cache [5, 6] and requested end 6, the decision is skip
and the cache survives unchanged even under a fetch that would return
[99]. -/
theorem skip_leaves_cache_unchanged_witness :
    reconcile [5, 6] (some 6) = RangeDecision.skip ∧
    orchestrator_step [5, 6] (some 6) (fun _ _ => [99]) = [5, 6] := by
  have h := skip_leaves_cache_unchanged [5, 6] 6 6 rfl (by decide)
  exact ⟨h.1, h.2 (fun _ _ => [99])⟩

/-- C7: loading from an explicitly supplied path that does not exist fails
with `NoFileError` carrying a message naming the missing path and returns no
series; loading from a path that holds a previously pickled value returns
that value. -/
theorem load_data_missing_path (fs : FS) (p : String) :
    (fs_lookup fs p = none →
      load_data fs p = .error (.noFile ("Data does not exist at \"" ++ p ++
        "\". Check if argument \"load_data_path\" is correct."))) ∧
    (∀ v : PValue, fs_lookup fs p = some (pickle_dumps v) →
      load_data fs p = .ok v) := by
  constructor
  · intro h
    unfold load_data
    rw [h]
  · intro v h
    unfold load_data
    rw [h]
    simp only [pickle_roundtrip v]

/-- A file system holding one pickled series at "past.pickle". -/
def fsExample : FS :=
  [("past.pickle", pickle_dumps (PValue.series [5, 6]))]

/-- C7 witness: a missing path raises `NoFileError` with the message naming
it; the existing path returns the pickled series. -/
theorem load_data_missing_path_witness :
    load_data fsExample "other.pickle" =
      .error (.noFile ("Data does not exist at \"" ++ "other.pickle" ++
        "\". Check if argument \"load_data_path\" is correct.")) ∧
    load_data fsExample "past.pickle" = .ok (PValue.series [5, 6]) := by
  constructor
  · exact (load_data_missing_path fsExample "other.pickle").1 rfl
  · exact (load_data_missing_path fsExample "past.pickle").2 (PValue.series [5, 6]) rfl

/-- C8: pickling a value to a path (the dump of lines 131-133) and loading
it back through `load_data` reproduces an equal value -- same keys, same
series content, same row order. -/
theorem dump_then_load_roundtrip (fs : FS) (p : String) (v : PValue) :
    load_data (dump_data fs p v) p = .ok v := by
  have h : fs_lookup (dump_data fs p v) p = some (pickle_dumps v) := by
    unfold dump_data fs_lookup
    rw [if_pos rfl]
  unfold load_data
  rw [h]
  simp only [pickle_roundtrip v]

/-- Fetch responses whose before request answers HTTP 200 with an
undecodable JSON body and whose after request succeeds with [6, 7]. -/
def malformedBeforeFetch : Option Nat × Option Nat → Resp := fun r =>
  if r.1 = some 1 then Resp.http 200 Body.malformed
  else Resp.http 200 (Body.quotes [6, 7])

/-- C9 counterexample: (i) a non-2xx response (HTTP 304) whose body parses
does NOT signal a `FetchError` -- `raise_for_status` raises only for
4xx/5xx -- and (ii) a malformed-JSON parse failure on the before side IS
absorbed by the soft-fail handler (the JSON-decode error belongs to the
`RequestException` family), the merge returning normally. -/
theorem non_error_status_not_fetch_error :
    fetch_daily_quotes (Resp.http 304 (Body.quotes [1, 2])) = .ok [1, 2] ∧
    ¬ (200 ≤ 304 ∧ 304 ≤ 299) ∧
    save_quotes_merge (some 1) (some 9) [5, 6] malformedBeforeFetch = .ok [5, 6, 7] :=
  ⟨rfl, by decide, rfl⟩

/-- C9 (amended): `raise_for_status` raises exactly for a 4xx/5xx status,
signalling `FetchError` carrying the status detail; every other status,
non-2xx included, proceeds to body parsing; a transport failure signals
`FetchError` without a status; a body missing the `daily_quotes` array
signals `ParseError` (a `KeyError`), which is distinct from every
`FetchError`, is no `RequestException`, and propagates out of
`save_quotes` on either side instead of being absorbed by the soft-fail
handler; undecodable JSON signals the JSON-decode error, which belongs to
the `RequestException` family (requests 2.27 and later) and therefore IS
absorbed by the soft-fail handler; these are the only failure modes of a
fetch call. -/
theorem fetch_failure_taxonomy (s : Nat) (b : Body) :
    (400 ≤ s → s < 600 →
      fetch_daily_quotes (.http s b) = .error (.fetchError (some s))) ∧
    (¬ (400 ≤ s ∧ s < 600) → b = .missingKey →
      fetch_daily_quotes (.http s b) = .error .parseError) ∧
    (¬ (400 ≤ s ∧ s < 600) → b = .malformed →
      fetch_daily_quotes (.http s b) = .error .jsonDecodeError) ∧
    (fetch_daily_quotes .netFail = .error (.fetchError none)) ∧
    (∀ e, fetch_daily_quotes (.http s b) = .error e →
      (∃ st, e = .fetchError st) ∨ e = .jsonDecodeError ∨ e = .parseError) ∧
    (∀ st, FetchErr.fetchError st ≠ .parseError) ∧
    (is_request_exception .parseError = false ∧
      is_request_exception .jsonDecodeError = true) ∧
    (∀ (stp ep : Option Nat) (dfPast : DF) (fetchFn : Option Nat × Option Nat → Resp),
      fetch_daily_quotes (fetchFn (before_range stp dfPast)) = .error .parseError →
      save_quotes_merge stp ep dfPast fetchFn = .error (.uncaught .parseError)) ∧
    (∀ (stp ep : Option Nat) (dfPast bf : DF)
        (fetchFn : Option Nat × Option Nat → Resp),
      fetch_daily_quotes (fetchFn (before_range stp dfPast)) = .ok bf → bf ≠ [] →
      fetch_daily_quotes (fetchFn (after_range dfPast ep)) = .error .parseError →
      save_quotes_merge stp ep dfPast fetchFn = .error (.uncaught .parseError)) ∧
    (∀ (stp ep : Option Nat) (dfPast af : DF)
        (fetchFn : Option Nat × Option Nat → Resp),
      fetch_daily_quotes (fetchFn (before_range stp dfPast)) = .error .jsonDecodeError →
      fetch_daily_quotes (fetchFn (after_range dfPast ep)) = .ok af → af ≠ [] →
      save_quotes_merge stp ep dfPast fetchFn = .ok (dfPast ++ af.drop 1)) := by
  refine ⟨?_, ?_, ?_, rfl, ?_, ?_, ⟨rfl, rfl⟩, ?_, ?_, ?_⟩
  · intro h1 h2
    simp [fetch_daily_quotes, h1, h2]
  · intro hn hb
    subst hb
    simp [fetch_daily_quotes, hn]
  · intro hn hb
    subst hb
    simp [fetch_daily_quotes, hn]
  · intro e
    by_cases hc : 400 ≤ s ∧ s < 600
    · simp only [fetch_daily_quotes, if_pos hc, Except.error.injEq]
      intro h
      exact Or.inl ⟨some s, h.symm⟩
    · cases b with
      | malformed =>
        simp only [fetch_daily_quotes, if_neg hc, Except.error.injEq]
        intro h
        exact Or.inr (Or.inl h.symm)
      | missingKey =>
        simp only [fetch_daily_quotes, if_neg hc, Except.error.injEq]
        intro h
        exact Or.inr (Or.inr h.symm)
      | quotes rows =>
        simp [fetch_daily_quotes, hc]
  · intro st h
    exact FetchErr.noConfusion h
  · intro stp ep dfPast fetchFn hb
    unfold save_quotes_merge
    rw [hb]
    simp [is_request_exception]
  · intro stp ep dfPast bf fetchFn hb hbne ha
    unfold save_quotes_merge
    rw [hb]
    simp only [if_neg hbne]
    unfold after_block
    rw [ha]
    simp [is_request_exception]
  · intro stp ep dfPast af fetchFn hb ha hane
    unfold save_quotes_merge
    rw [hb]
    simp only [is_request_exception, if_true]
    unfold after_block
    rw [ha]
    simp [if_neg hane]

/-- C9 (amended) witness: HTTP 500 yields the fetch error carrying 500; a
2xx body missing the daily quotes key yields the parse error; a 2xx
undecodable body yields the JSON-decode error. -/
theorem fetch_failure_taxonomy_witness :
    fetch_daily_quotes (.http 500 .missingKey) = .error (.fetchError (some 500)) ∧
    fetch_daily_quotes (.http 200 .missingKey) = .error .parseError ∧
    fetch_daily_quotes (.http 200 .malformed) = .error .jsonDecodeError :=
  ⟨(fetch_failure_taxonomy 500 .missingKey).1 (by decide) (by decide),
   (fetch_failure_taxonomy 200 .missingKey).2.1 (by decide) rfl,
   (fetch_failure_taxonomy 200 .malformed).2.2.1 (by decide) rfl⟩

end JQD
